import Mathlib

/-!
Verification development for the Keppel admission-control and pull-through
manifest-caching gateway: the failure envelope (RegistryV2Error), the
rate-limit admission check (CheckRateLimit), and the unittest inbound cache
driver (InboundCacheDriver). Definitions are shallow embeddings of the Go
source; machine integers are modelled as Nat/Int (Go time.Duration and
time.Time instants are integer nanosecond counts), Go errors as an explicit
sum type, and Go maps as association lists or functions into Option.
-/

namespace Keppel

/-- RegistryV2ErrorCode is the closed set of error codes that can appear in
type RegistryV2Error. The Go declaration is a named string type
(`type RegistryV2ErrorCode string`), modelled as a single-field wrapper
around the wire string. -/
structure RegistryV2ErrorCode where
  val : String
  deriving DecidableEq

/-- Wire value BLOB_UNKNOWN. -/
def ErrBlobUnknown : RegistryV2ErrorCode := ⟨"BLOB_UNKNOWN"⟩

/-- Wire value BLOB_UPLOAD_INVALID. -/
def ErrBlobUploadInvalid : RegistryV2ErrorCode := ⟨"BLOB_UPLOAD_INVALID"⟩

/-- Wire value BLOB_UPLOAD_UNKNOWN. -/
def ErrBlobUploadUnknown : RegistryV2ErrorCode := ⟨"BLOB_UPLOAD_UNKNOWN"⟩

/-- Wire value DIGEST_INVALID. -/
def ErrDigestInvalid : RegistryV2ErrorCode := ⟨"DIGEST_INVALID"⟩

/-- Wire value MANIFEST_BLOB_UNKNOWN. -/
def ErrManifestBlobUnknown : RegistryV2ErrorCode := ⟨"MANIFEST_BLOB_UNKNOWN"⟩

/-- Wire value MANIFEST_INVALID. -/
def ErrManifestInvalid : RegistryV2ErrorCode := ⟨"MANIFEST_INVALID"⟩

/-- Wire value MANIFEST_UNKNOWN. -/
def ErrManifestUnknown : RegistryV2ErrorCode := ⟨"MANIFEST_UNKNOWN"⟩

/-- Wire value MANIFEST_UNVERIFIED. -/
def ErrManifestUnverified : RegistryV2ErrorCode := ⟨"MANIFEST_UNVERIFIED"⟩

/-- Wire value NAME_INVALID. -/
def ErrNameInvalid : RegistryV2ErrorCode := ⟨"NAME_INVALID"⟩

/-- Wire value NAME_UNKNOWN. -/
def ErrNameUnknown : RegistryV2ErrorCode := ⟨"NAME_UNKNOWN"⟩

/-- Wire value SIZE_INVALID. -/
def ErrSizeInvalid : RegistryV2ErrorCode := ⟨"SIZE_INVALID"⟩

/-- Wire value TAG_INVALID. -/
def ErrTagInvalid : RegistryV2ErrorCode := ⟨"TAG_INVALID"⟩

/-- Wire value UNAUTHORIZED. -/
def ErrUnauthorized : RegistryV2ErrorCode := ⟨"UNAUTHORIZED"⟩

/-- Wire value DENIED. -/
def ErrDenied : RegistryV2ErrorCode := ⟨"DENIED"⟩

/-- Wire value UNSUPPORTED. -/
def ErrUnsupported : RegistryV2ErrorCode := ⟨"UNSUPPORTED"⟩

/-- Wire value UNKNOWN (not in opencontainers/distribution-spec, but appears
in docker/distribution). -/
def ErrUnknown : RegistryV2ErrorCode := ⟨"UNKNOWN"⟩

/-- Wire value UNAVAILABLE. -/
def ErrUnavailable : RegistryV2ErrorCode := ⟨"UNAVAILABLE"⟩

/-- Wire value TOOMANYREQUESTS. -/
def ErrTooManyRequests : RegistryV2ErrorCode := ⟨"TOOMANYREQUESTS"⟩

/-- The closed set of error codes, in source declaration order. -/
def apiErrorCodes : List RegistryV2ErrorCode :=
  [ErrBlobUnknown, ErrBlobUploadInvalid, ErrBlobUploadUnknown, ErrDigestInvalid,
   ErrManifestBlobUnknown, ErrManifestInvalid, ErrManifestUnknown, ErrManifestUnverified,
   ErrNameInvalid, ErrNameUnknown, ErrSizeInvalid, ErrTagInvalid, ErrUnauthorized,
   ErrDenied, ErrUnsupported, ErrUnknown, ErrUnavailable, ErrTooManyRequests]

/-- The fixed code-to-default-message table (Go map apiErrorMessages). Looking
up a key outside the closed set yields the Go zero value, the empty string. -/
def apiErrorMessages (c : RegistryV2ErrorCode) : String :=
  if c = ErrBlobUnknown then "blob unknown to registry"
  else if c = ErrBlobUploadInvalid then "blob upload invalid"
  else if c = ErrBlobUploadUnknown then "blob upload unknown to registry"
  else if c = ErrDigestInvalid then "provided digest did not match uploaded content"
  else if c = ErrManifestBlobUnknown then "manifest blob unknown to registry"
  else if c = ErrManifestInvalid then "manifest invalid"
  else if c = ErrManifestUnknown then "manifest unknown"
  else if c = ErrManifestUnverified then "manifest failed signature verification"
  else if c = ErrNameInvalid then "invalid repository name"
  else if c = ErrNameUnknown then "repository name not known to registry"
  else if c = ErrSizeInvalid then "provided length did not match content length"
  else if c = ErrTagInvalid then "manifest tag did not match URI"
  else if c = ErrUnauthorized then "authentication required"
  else if c = ErrDenied then "requested access to the resource is denied"
  else if c = ErrUnsupported then "operation is unsupported"
  else if c = ErrUnknown then "unknown error"
  else if c = ErrUnavailable then "registry is currently unavailable"
  else if c = ErrTooManyRequests then "too many requests; please slow down"
  else ""

/-- The fixed code-to-default-HTTP-status table (Go map apiErrorStatusCodes).
ErrDenied maps to 401 rather than 403 for bug-for-bug compatibility with
docker-registry. Looking up a key outside the closed set yields the Go zero
value 0. -/
def apiErrorStatusCodes (c : RegistryV2ErrorCode) : Nat :=
  if c = ErrBlobUnknown then 404
  else if c = ErrBlobUploadInvalid then 400
  else if c = ErrBlobUploadUnknown then 404
  else if c = ErrDigestInvalid then 400
  else if c = ErrManifestBlobUnknown then 404
  else if c = ErrManifestInvalid then 400
  else if c = ErrManifestUnknown then 404
  else if c = ErrManifestUnverified then 400
  else if c = ErrNameInvalid then 400
  else if c = ErrNameUnknown then 404
  else if c = ErrSizeInvalid then 400
  else if c = ErrTagInvalid then 400
  else if c = ErrUnauthorized then 401
  else if c = ErrDenied then 401
  else if c = ErrUnsupported then 405
  else if c = ErrUnknown then 500
  else if c = ErrUnavailable then 503
  else if c = ErrTooManyRequests then 429
  else 0

/-- RegistryV2Error is the error type expected by clients of the
docker-registry v2 API. Detail is `any` in Go; in every code path embedded
here it is either nil or a string, so it is modelled as Option String.
Headers is an http.Header (map from canonical key to value list), modelled
as an association list. Go zero values: Status 0, Headers nil, Detail nil. -/
structure RegistryV2Error where
  Code : RegistryV2ErrorCode
  Message : String
  Detail : Option String
  Status : Nat
  Headers : List (String × List String)
  deriving DecidableEq

/-- With is a convenience function for constructing type RegistryV2Error.
The Go function also accepts printf-style format arguments and runs
fmt.Sprintf over them when at least one is supplied; every call site embedded
in this development passes no arguments, in which case the Go code uses msg
unchanged (or the default message from the table when msg is empty). -/
def RegistryV2ErrorCode.With (c : RegistryV2ErrorCode) (msg : String) : RegistryV2Error :=
  { Code := c
    Message := if msg = "" then apiErrorMessages c else msg
    Detail := none
    Status := 0
    Headers := [] }

/-- Predicate for bytes allowed in a canonical MIME header key, following the
token table used by Go net/textproto (letters, digits, and the token special
characters, given here by code point). -/
def validHeaderFieldChar (c : Char) : Bool :=
  decide (97 ≤ c.toNat ∧ c.toNat ≤ 122) ||
  decide (65 ≤ c.toNat ∧ c.toNat ≤ 90) ||
  decide (48 ≤ c.toNat ∧ c.toNat ≤ 57) ||
  [33, 35, 36, 37, 38, 39, 42, 43, 45, 46, 94, 95, 96, 124, 126].contains c.toNat

/-- One pass of Go net/textproto canonicalization: uppercase the first letter
and each letter following a hyphen, lowercase every other letter. The Bool
argument tracks whether the next character starts a word. -/
def canonicalChars : Bool → List Char → List Char
  | _, [] => []
  | upper, c :: rest =>
    let c2 := if upper ∧ 97 ≤ c.toNat ∧ c.toNat ≤ 122 then c.toUpper
      else if ¬upper ∧ 65 ≤ c.toNat ∧ c.toNat ≤ 90 then c.toLower
      else c
    c2 :: canonicalChars (c2 == '-') rest

/-- Go http.CanonicalHeaderKey: canonicalize a header key, or return it
unchanged when it contains a byte that is not valid in a header field name. -/
def canonicalHeaderKey (s : String) : String :=
  if s.toList.all validHeaderFieldChar then ⟨canonicalChars true s.toList⟩ else s

/-- Assignment into an http.Header map, modelled on the association list:
replace the binding for the key if present, else append it. -/
def setHeaderValue : List (String × List String) → String → List String → List (String × List String)
  | [], k, v => [(k, v)]
  | (k0, v0) :: rest, k, v =>
    if k0 = k then (k, v) :: rest else (k0, v0) :: setHeaderValue rest k v

/-- Lookup in an http.Header map modelled as an association list. -/
def getHeaderValue : List (String × List String) → String → Option (List String)
  | [], _ => none
  | (k0, v0) :: rest, k => if k0 = k then some v0 else getHeaderValue rest k

/-- WithDetail adds detail information to this error. -/
def RegistryV2Error.WithDetail (e : RegistryV2Error) (detail : String) : RegistryV2Error :=
  { e with Detail := some detail }

/-- WithStatus changes the HTTP status code for this error. -/
def RegistryV2Error.WithStatus (e : RegistryV2Error) (status : Nat) : RegistryV2Error :=
  { e with Status := status }

/-- WithHeader adds a HTTP response header to this error, storing the value
under the canonicalized key (Go allocates the map on first use; the
association list covers the nil and non-nil map cases uniformly). -/
def RegistryV2Error.WithHeader (e : RegistryV2Error) (key : String) (values : List String) :
    RegistryV2Error :=
  { e with Headers := setHeaderValue e.Headers (canonicalHeaderKey key) values }

/-- Error implements the builtin error interface: the message, with the
detail appended after a colon when present. (The Go code JSON-marshals a
non-string detail first; Detail is modelled as Option String, so only the
nil and string cases arise.) -/
def RegistryV2Error.Error (e : RegistryV2Error) : String :=
  match e.Detail with
  | none => e.Message
  | some d => e.Message ++ ": " ++ d

/-- The HTTP status actually sent for an envelope: the explicit Status when
nonzero, else the default from the code-to-status table. Both response
writers in the source compute exactly this expression at write time. -/
def RegistryV2Error.effectiveStatus (e : RegistryV2Error) : Nat :=
  if e.Status = 0 then apiErrorStatusCodes e.Code else e.Status

/-- A Go error value as it flows through the embedded code paths: either a
RegistryV2Error envelope, a generic error carrying only its text, or the
sql.ErrNoRows sentinel (a distinguished generic error value compared against
by identity in Go). -/
inductive GoError where
  | registryV2 (e : RegistryV2Error)
  | generic (msg : String)
  | sqlErrNoRows
  deriving DecidableEq

/-- The text returned by the Error() method of each modelled error value.
sql.ErrNoRows carries this fixed text in the Go standard library. -/
def GoError.errorText : GoError → String
  | .registryV2 e => e.Error
  | .generic msg => msg
  | .sqlErrNoRows => "sql: no rows in result set"

/-- AsRegistryV2Error tries to cast err into RegistryV2Error (errors.As on
the modelled sum type). If err is not a RegistryV2Error, it gets wrapped in
ErrUnknown instead, with the original error text as the message. -/
def AsRegistryV2Error (err : GoError) : RegistryV2Error :=
  match err with
  | .registryV2 e => e
  | _ => ErrUnknown.With err.errorText

/-- The body of an HTTP response written by one of the error writers,
modelled at the structure level (the marshaled value, not its byte
encoding): the errors array of the Registry V2 format, the details object of
the Auth format, plain text, or no body (HEAD requests). -/
inductive ResponseBody where
  | empty
  | registryV2Errors (errs : List RegistryV2Error)
  | authDetails (details : String)
  | text (s : String)
  deriving DecidableEq

/-- The observable outcome of writing an error to a ResponseWriter: final
status code, response headers, and body. -/
structure HttpResponse where
  status : Nat
  headers : List (String × List String)
  body : ResponseBody
  deriving DecidableEq

/-- Copying the entries of e.Headers into the ResponseWriter header map
(the Go loop `for k, v := range e.Headers { w.Header()[k] = v }`). -/
def copyHeadersTo (dst src : List (String × List String)) : List (String × List String) :=
  src.foldl (fun acc kv => setHeaderValue acc kv.1 kv.2) dst

/-- WriteAsRegistryV2ResponseTo reports this error in the format used by the
Registry V2 API: Content-Type application/json, the envelope headers, the
resolved status, and the errors array as body unless the request was a HEAD
request. The second component is the envelope value after the call; no
statement of the Go method assigns to the receiver, so it is returned
unchanged. -/
def RegistryV2Error.WriteAsRegistryV2ResponseTo (e : RegistryV2Error) (isHeadRequest : Bool) :
    HttpResponse × RegistryV2Error :=
  let headers0 := setHeaderValue [] (canonicalHeaderKey "Content-Type") ["application/json"]
  let headers1 := copyHeadersTo headers0 e.Headers
  let status := if e.Status = 0 then apiErrorStatusCodes e.Code else e.Status
  let body := if isHeadRequest then ResponseBody.empty else ResponseBody.registryV2Errors [e]
  (⟨status, headers1, body⟩, e)

/-- WriteAsAuthResponseTo reports this error in the format used by the Auth
API endpoint: the envelope headers, the resolved status, and a JSON object
with the error text under the details key. The second component is the
envelope value after the call, returned unchanged as in the source. -/
def RegistryV2Error.WriteAsAuthResponseTo (e : RegistryV2Error) :
    HttpResponse × RegistryV2Error :=
  let headers := copyHeadersTo [] e.Headers
  let status := if e.Status = 0 then apiErrorStatusCodes e.Code else e.Status
  (⟨status, headers, ResponseBody.authDetails e.Error⟩, e)

/-- WriteAsTextTo reports this error in a plain text format: the envelope
headers, the resolved status, and the error text plus a newline as body. The
second component is the envelope value after the call, returned unchanged as
in the source. -/
def RegistryV2Error.WriteAsTextTo (e : RegistryV2Error) :
    HttpResponse × RegistryV2Error :=
  let headers := copyHeadersTo [] e.Headers
  let status := if e.Status = 0 then apiErrorStatusCodes e.Code else e.Status
  (⟨status, headers, ResponseBody.text (e.Error ++ "\n")⟩, e)

/-- Modelled from the spec: UserType is a capability classification of the
identity of the caller (ordinary tenant user, anonymous user, cluster-internal
peer service, automated trusted scanner), used only to decide rate-limit
exemption. The keppel-package enumeration itself is not among the given
source files; CheckRateLimit compares it against the peer and scanner tags. -/
inductive UserType where
  | RegularUser
  | AnonymousUser
  | PeerUser
  | TrivyUser
  deriving DecidableEq

/-- Modelled from the spec: the tenant account record, identified by an
opaque AccountName string. CheckRateLimit only forwards it to the driver. -/
structure ReducedAccount where
  Name : String
  deriving DecidableEq

/-- Modelled from the spec: an enumerated tag identifying the kind of
operation being gated; a named string type in the keppel package, which is
not among the given source files. Only forwarded to the driver. -/
abbrev RateLimitedAction := String

/-- Modelled from the spec: the result of a rate-limit driver decision:
how long the caller should wait before retrying, zero or negative when not
applicable. A Go time.Duration, an int64 count of nanoseconds. -/
structure RateLimitResult where
  RetryAfter : Int
  deriving DecidableEq

/-- Go time.Second as a duration in nanoseconds. -/
def timeSecond : Int := 1000000000

/-- Modelled from the spec: the keppel-package helper AtLeastZero is not
among the given source files; per the spec the retry-after value is
max(0, floor(RetryAfter / 1 second)) and a negative value is never emitted,
so the helper clamps negative inputs to zero (Int.toNat). -/
def AtLeastZero (x : Int) : Nat := x.toNat

/-- Go strconv.FormatUint in base 10: the decimal representation. -/
def strconvFormatUint (x : Nat) : String := toString x

/-- Modelled from the spec: the Rate Limit Engine consulted by
CheckRateLimit. Its RateLimitAllows method takes the requester IP, the
account, the action and the weighted amount and returns
(allowed, result, err); the engine type lives in the keppel package, which
is not among the given source files, so it is modelled as the decision
function itself (the execution context is dropped: no embedded claim
depends on cancellation). -/
structure RateLimitEngine where
  RateLimitAllows : String → ReducedAccount → RateLimitedAction → Nat →
    Bool × RateLimitResult × Option GoError

/-- CheckRateLimit gates a registry action. Direct translation of the Go
function: a nil engine allows everything; cluster-internal traffic
(PeerUser, TrivyUser) is exempt; otherwise the driver decides, a driver
error is returned as-is, and a deny becomes ErrTooManyRequests with a
Retry-After header of whole seconds (Go int64 division truncates toward
zero, hence Int.tdiv). The http.Request argument of the Go function is
represented by the values actually read from it: the requester IP and the
UserType of the authorization. -/
def CheckRateLimit (rle : Option RateLimitEngine) (requesterIP : String)
    (userType : UserType) (account : ReducedAccount) (action : RateLimitedAction)
    (amount : Nat) : Option GoError :=
  match rle with
  | none => none
  | some engine =>
    if userType = UserType.PeerUser ∨ userType = UserType.TrivyUser then
      none
    else
      match engine.RateLimitAllows requesterIP account action amount with
      | (_, _, some err) => some err
      | (allowed, result, none) =>
        if allowed then
          none
        else
          let retryAfterStr := strconvFormatUint (AtLeastZero (Int.tdiv result.RetryAfter timeSecond))
          some (GoError.registryV2
            ((ErrTooManyRequests.With "").WithHeader "Retry-After" [retryAfterStr]))

/-- Modelled from the spec: models.ImageReference, the cache key for a
manifest: (registry-origin, repository, tag-or-digest). The models-package
type is not among the given source files; the cache only uses it as a map
key, so only its identity matters here. -/
structure ImageReference where
  Host : String
  RepoName : String
  Reference : String
  deriving DecidableEq

/-- An entry of the unittest inbound cache: manifest bytes (modelled as a
list of byte values), media type, and the insertion instant in nanoseconds. -/
structure inboundCacheEntry where
  Contents : List Nat
  MediaType : String
  InsertedAt : Int
  deriving DecidableEq

/-- InboundCacheDriver (driver ID unittest) is a keppel.InboundCacheDriver
for unit tests. It remembers all manifests ever pushed into it in-memory;
the Go map is modelled as a function into Option. -/
structure InboundCacheDriver where
  MaxAge : Int
  Entries : ImageReference → Option inboundCacheEntry

/-- Init implements the keppel.InboundCacheDriver interface: MaxAge becomes
6 hours (21600000000000 nanoseconds) and the entry map becomes empty. The
configuration argument is opaque to this driver and modelled as Unit; the
Go method mutates the receiver and returns nil, modelled as returning the
initialized driver paired with no error. -/
def InboundCacheDriver.Init (_cfg : Unit) : InboundCacheDriver × Option GoError :=
  ({ MaxAge := 21600000000000, Entries := fun _ => none }, none)

/-- LoadManifest implements the keppel.InboundCacheDriver interface: an
entry is a hit only when it exists and its InsertedAt is strictly after
now − MaxAge (Go time.After is a strict comparison); otherwise the result
is (nil, empty string, sql.ErrNoRows). -/
def InboundCacheDriver.LoadManifest (d : InboundCacheDriver) (location : ImageReference)
    (now : Int) : Option (List Nat) × String × Option GoError :=
  let maxInsertedAt := now - d.MaxAge
  match d.Entries location with
  | some entry =>
    if maxInsertedAt < entry.InsertedAt then
      (some entry.Contents, entry.MediaType, none)
    else
      (none, "", some GoError.sqlErrNoRows)
  | none => (none, "", some GoError.sqlErrNoRows)

/-- StoreManifest implements the keppel.InboundCacheDriver interface: the
entry for the location is overwritten with the given contents, media type
and the current instant, and no error is returned. -/
def InboundCacheDriver.StoreManifest (d : InboundCacheDriver) (location : ImageReference)
    (contents : List Nat) (mediaType : String) (now : Int) :
    InboundCacheDriver × Option GoError :=
  ({ d with
      Entries := fun l =>
        if l = location then some ⟨contents, mediaType, now⟩ else d.Entries l },
   none)

/-- A deterministic test engine whose driver denies every request with a
RetryAfter hint of 450 milliseconds. -/
def testDenyEngine450 : RateLimitEngine :=
  ⟨fun _ _ _ _ => (false, ⟨450000000⟩, none)⟩

/-- A deterministic test engine whose driver denies every request with a
RetryAfter hint of 90 seconds. -/
def denyAllEngine : RateLimitEngine :=
  ⟨fun _ _ _ _ => (false, ⟨90000000000⟩, none)⟩

/-- A deterministic test engine whose driver always fails with a generic
backend error. -/
def failingEngine : RateLimitEngine :=
  ⟨fun _ _ _ _ => (false, ⟨0⟩, some (GoError.generic "rate limit backend unreachable"))⟩

/-- Truncating division toward zero clamped at zero agrees with flooring
division clamped at zero, for the positive divisor timeSecond. -/
theorem atLeastZero_tdiv_eq_max_fdiv (x : Int) :
    AtLeastZero (Int.tdiv x timeSecond) = (max 0 (Int.fdiv x timeSecond)).toNat := by
  unfold AtLeastZero timeSecond
  have h3 : Int.fdiv x 1000000000 = x / 1000000000 := Int.fdiv_eq_ediv _ (by norm_num)
  rcases le_or_lt 0 x with h | h
  · have h1 : Int.tdiv x 1000000000 = x / 1000000000 := Int.tdiv_eq_ediv h (by norm_num)
    omega
  · have h1 : Int.tdiv x 1000000000 = -(Int.tdiv (-x) 1000000000) := by
      rw [← Int.neg_tdiv, neg_neg]
    have h2 : Int.tdiv (-x) 1000000000 = (-x) / 1000000000 :=
      Int.tdiv_eq_ediv (by omega) (by norm_num)
    omega

/-- Behaviour of LoadManifest at a key right after StoreManifest wrote it:
a hit with the stored bytes and media type when the age is strictly below
MaxAge, a miss with sql.ErrNoRows otherwise. -/
theorem loadManifest_after_storeManifest (d : InboundCacheDriver) (k : ImageReference)
    (b : List Nat) (mt : String) (t0 now : Int) :
    ((d.StoreManifest k b mt t0).1).LoadManifest k now =
      if now - t0 < d.MaxAge then (some b, mt, (none : Option GoError))
      else (none, "", some GoError.sqlErrNoRows) := by
  simp only [InboundCacheDriver.StoreManifest, InboundCacheDriver.LoadManifest,
    eq_self_iff_true, if_true]
  by_cases h : now - t0 < d.MaxAge
  · rw [if_pos (by omega : now - d.MaxAge < t0), if_pos h]
  · rw [if_neg (by omega : ¬now - d.MaxAge < t0), if_neg h]

/-- C1: when the configured rate-limit driver denies a request from a
non-exempt caller, CheckRateLimit returns a failure envelope with code
TOOMANYREQUESTS, default status 429 (no explicit status override), and a
Retry-After header whose single value is the decimal string of
max(0, floor(RetryAfter / 1 second)); this holds for every RetryAfter
duration, negative ones included, so the emitted value is never negative. -/
theorem C1_deny_produces_toomanyrequests (eng : RateLimitEngine) (ip : String)
    (ut : UserType) (acc : ReducedAccount) (act : RateLimitedAction) (amt : Nat)
    (result : RateLimitResult)
    (hexempt : ¬(ut = UserType.PeerUser ∨ ut = UserType.TrivyUser))
    (hdrv : eng.RateLimitAllows ip acc act amt = (false, result, none)) :
    ∃ env : RegistryV2Error,
      CheckRateLimit (some eng) ip ut acc act amt = some (GoError.registryV2 env) ∧
      env.Code = ErrTooManyRequests ∧
      env.Code.val = "TOOMANYREQUESTS" ∧
      env.Status = 0 ∧
      env.effectiveStatus = 429 ∧
      getHeaderValue env.Headers "Retry-After" =
        some [strconvFormatUint (max 0 (Int.fdiv result.RetryAfter timeSecond)).toNat] := by
  refine ⟨(ErrTooManyRequests.With "").WithHeader "Retry-After"
      [strconvFormatUint (AtLeastZero (Int.tdiv result.RetryAfter timeSecond))],
    ?_, rfl, rfl, rfl, rfl, ?_⟩
  · simp only [CheckRateLimit, if_neg hexempt, hdrv]
    rfl
  · rw [atLeastZero_tdiv_eq_max_fdiv]
    rfl

/-- Witness for C1 at a concrete denying driver: RetryAfter 450ms, a regular
user; the max(0, floor) formula yields 0 there and 1 at 1.999s. -/
theorem C1_deny_produces_toomanyrequests_witness :
    (¬(UserType.RegularUser = UserType.PeerUser ∨ UserType.RegularUser = UserType.TrivyUser)) ∧
    ((max 0 (Int.fdiv (450000000 : Int) timeSecond)).toNat = 0) ∧
    ((max 0 (Int.fdiv (1999000000 : Int) timeSecond)).toNat = 1) ∧
    ((max 0 (Int.fdiv (-1500000000 : Int) timeSecond)).toNat = 0) ∧
    (∃ env : RegistryV2Error,
      CheckRateLimit (some testDenyEngine450) "198.51.100.7" UserType.RegularUser
        ⟨"tenant1"⟩ "pull" 1 = some (GoError.registryV2 env) ∧
      env.Code = ErrTooManyRequests ∧
      env.Code.val = "TOOMANYREQUESTS" ∧
      env.Status = 0 ∧
      env.effectiveStatus = 429 ∧
      getHeaderValue env.Headers "Retry-After" =
        some [strconvFormatUint (max 0 (Int.fdiv (RateLimitResult.mk 450000000).RetryAfter timeSecond)).toNat]) :=
  ⟨by decide, by decide, by decide, by decide,
   C1_deny_produces_toomanyrequests testDenyEngine450 "198.51.100.7" UserType.RegularUser
     ⟨"tenant1"⟩ "pull" 1 ⟨450000000⟩ (by decide) rfl⟩

/-- C2 counterexample: with the unittest driver (MaxAge 6 hours), an entry
stored at instant 0 and loaded at an age of exactly MaxAge satisfies
now − InsertedAt ≤ MaxAge, yet LoadManifest reports a miss (sql.ErrNoRows),
not the stored entry: the freshness check of the code is strict. -/
theorem C2_freshness_boundary_counterexample :
    let d0 := (InboundCacheDriver.Init ()).1
    let k : ImageReference := ⟨"registry.example.org", "library/alpine", "latest"⟩
    let d1 := (d0.StoreManifest k [1, 2, 3] "application/vnd.x" 0).1
    ((21600000000000 : Int) - 0 ≤ d1.MaxAge) ∧
    d1.LoadManifest k 21600000000000 ≠ (some [1, 2, 3], "application/vnd.x", none) ∧
    d1.LoadManifest k 21600000000000 = (none, "", some GoError.sqlErrNoRows) := by
  decide

/-- C2 (amended): for every key, bytes, media type and times, after
StoreManifest at t0, LoadManifest at now returns the stored entry exactly
when now − t0 is strictly less than MaxAge, and behaves identically to a
cache miss (sql.ErrNoRows) when now − t0 is at least MaxAge; in particular
an entry whose age is exactly MaxAge is already a miss. -/
theorem C2_freshness_amended (d : InboundCacheDriver) (k : ImageReference)
    (b : List Nat) (mt : String) (t0 now : Int) :
    ((d.StoreManifest k b mt t0).1).LoadManifest k now =
      if now - t0 < d.MaxAge then (some b, mt, (none : Option GoError))
      else (none, "", some GoError.sqlErrNoRows) :=
  loadManifest_after_storeManifest d k b mt t0 now

/-- C3: requests whose caller identity is a cluster-internal peer or the
trusted automated scanner are allowed unconditionally, for every engine
(present or absent), account, action and amount, regardless of what the
driver would decide. -/
theorem C3_cluster_internal_exempt (rle : Option RateLimitEngine) (ip : String)
    (ut : UserType) (acc : ReducedAccount) (act : RateLimitedAction) (amt : Nat)
    (h : ut = UserType.PeerUser ∨ ut = UserType.TrivyUser) :
    CheckRateLimit rle ip ut acc act amt = none := by
  cases rle with
  | none => rfl
  | some engine => simp only [CheckRateLimit, if_pos h]

/-- Witness for C3: both exempt user types pass an engine whose driver
would deny every request. -/
theorem C3_cluster_internal_exempt_witness :
    (UserType.PeerUser = UserType.PeerUser ∨ UserType.PeerUser = UserType.TrivyUser) ∧
    CheckRateLimit (some denyAllEngine) "203.0.113.9" UserType.PeerUser ⟨"tenant1"⟩ "push" 1 = none ∧
    CheckRateLimit (some denyAllEngine) "203.0.113.9" UserType.TrivyUser ⟨"tenant1"⟩ "push" 1 = none :=
  ⟨Or.inl rfl,
   C3_cluster_internal_exempt _ _ _ _ _ _ (Or.inl rfl),
   C3_cluster_internal_exempt _ _ _ _ _ _ (Or.inr rfl)⟩

/-- C4: with no rate-limit engine configured, CheckRateLimit returns nil for
every requester, user type, account, action and amount. -/
theorem C4_nil_engine_allows_everything (ip : String) (ut : UserType)
    (acc : ReducedAccount) (act : RateLimitedAction) (amt : Nat) :
    CheckRateLimit none ip ut acc act amt = none := rfl

/-- C5: a non-nil driver error is returned by CheckRateLimit exactly as the
driver produced it, whatever the accompanying allowed flag and result: it is
neither wrapped in an envelope nor swallowed. -/
theorem C5_driver_error_returned_unmodified (eng : RateLimitEngine) (ip : String)
    (ut : UserType) (acc : ReducedAccount) (act : RateLimitedAction) (amt : Nat)
    (allowed : Bool) (result : RateLimitResult) (err : GoError)
    (hexempt : ¬(ut = UserType.PeerUser ∨ ut = UserType.TrivyUser))
    (hdrv : eng.RateLimitAllows ip acc act amt = (allowed, result, some err)) :
    CheckRateLimit (some eng) ip ut acc act amt = some err := by
  simp only [CheckRateLimit, if_neg hexempt, hdrv]

/-- Witness for C5 at a concrete failing driver. -/
theorem C5_driver_error_returned_unmodified_witness :
    (¬(UserType.RegularUser = UserType.PeerUser ∨ UserType.RegularUser = UserType.TrivyUser)) ∧
    CheckRateLimit (some failingEngine) "192.0.2.4" UserType.RegularUser ⟨"tenant1"⟩ "pull" 3 =
      some (GoError.generic "rate limit backend unreachable") :=
  ⟨by decide,
   C5_driver_error_returned_unmodified failingEngine "192.0.2.4" UserType.RegularUser
     ⟨"tenant1"⟩ "pull" 3 false ⟨0⟩ (GoError.generic "rate limit backend unreachable")
     (by decide) rfl⟩

/-- C6: a StoreManifest followed by a LoadManifest of the same key at any
age ε with 0 ≤ ε < MaxAge is a hit returning exactly the stored bytes and
media type with no error. -/
theorem C6_cache_roundtrip (d : InboundCacheDriver) (k : ImageReference)
    (b : List Nat) (mt : String) (t0 ε : Int) (h0 : 0 ≤ ε) (h1 : ε < d.MaxAge) :
    ((d.StoreManifest k b mt t0).1).LoadManifest k (t0 + ε) = (some b, mt, none) := by
  rw [loadManifest_after_storeManifest, if_pos (by omega)]

/-- Witness for C6 on the initialized unittest driver with ε = 5 seconds. -/
theorem C6_cache_roundtrip_witness :
    ((0 : Int) ≤ 5000000000) ∧
    ((5000000000 : Int) < (InboundCacheDriver.Init ()).1.MaxAge) ∧
    (((InboundCacheDriver.Init ()).1.StoreManifest ⟨"registry.example.org", "library/alpine", "latest"⟩
        [7, 7] "application/vnd.x" 100).1).LoadManifest
      ⟨"registry.example.org", "library/alpine", "latest"⟩ (100 + 5000000000) =
      (some [7, 7], "application/vnd.x", none) :=
  ⟨by decide, by decide,
   C6_cache_roundtrip _ _ _ _ 100 5000000000 (by decide) (by decide)⟩

/-- C7: for every code in the closed set, With applied to the empty string
yields the default message of the code-to-message table and an envelope
whose explicit status is 0, so its effective status is the default of the
code-to-status table; in particular MANIFEST_UNKNOWN resolves to 404 with
message "manifest unknown" and DENIED resolves to 401, not 403. -/
theorem C7_default_message_and_status (c : RegistryV2ErrorCode)
    (h : c ∈ apiErrorCodes) :
    (c.With "").Message = apiErrorMessages c ∧
    (c.With "").Status = 0 ∧
    (c.With "").effectiveStatus = apiErrorStatusCodes c ∧
    (ErrManifestUnknown.With "").effectiveStatus = 404 ∧
    (ErrManifestUnknown.With "").Message = "manifest unknown" ∧
    (ErrDenied.With "").effectiveStatus = 401 ∧
    (ErrDenied.With "").effectiveStatus ≠ 403 :=
  ⟨rfl, rfl, rfl, by decide, by decide, by decide, by decide⟩

/-- Witness for C7 at MANIFEST_UNKNOWN. -/
theorem C7_default_message_and_status_witness :
    (ErrManifestUnknown ∈ apiErrorCodes) ∧
    ((ErrManifestUnknown.With "").Message = apiErrorMessages ErrManifestUnknown ∧
     (ErrManifestUnknown.With "").Status = 0 ∧
     (ErrManifestUnknown.With "").effectiveStatus = apiErrorStatusCodes ErrManifestUnknown ∧
     (ErrManifestUnknown.With "").effectiveStatus = 404 ∧
     (ErrManifestUnknown.With "").Message = "manifest unknown" ∧
     (ErrDenied.With "").effectiveStatus = 401 ∧
     (ErrDenied.With "").effectiveStatus ≠ 403) :=
  ⟨by decide, C7_default_message_and_status ErrManifestUnknown (by decide)⟩

/-- C8 counterexample: a generic error whose text is the empty string is
wrapped by AsRegistryV2Error with the default message "unknown error" of the
UNKNOWN code, not with its original (empty) error text. -/
theorem C8_empty_text_counterexample :
    (AsRegistryV2Error (GoError.generic "")).Message ≠ (GoError.generic "").errorText ∧
    (AsRegistryV2Error (GoError.generic "")).Message = "unknown error" := by
  decide

/-- C8 (amended): an error that already is a RegistryV2Error envelope is
returned as-is; any other error is wrapped under code UNKNOWN with default
status 500 and with the original error text as the message, except that an
empty error text is replaced by the default message "unknown error". -/
theorem C8_as_registry_v2_error_amended :
    (∀ e : RegistryV2Error, AsRegistryV2Error (GoError.registryV2 e) = e) ∧
    (∀ msg : String,
      (AsRegistryV2Error (GoError.generic msg)).Code = ErrUnknown ∧
      (AsRegistryV2Error (GoError.generic msg)).Status = 0 ∧
      (AsRegistryV2Error (GoError.generic msg)).effectiveStatus = 500 ∧
      (AsRegistryV2Error (GoError.generic msg)).Message =
        (if msg = "" then "unknown error" else msg)) ∧
    (AsRegistryV2Error GoError.sqlErrNoRows).Code = ErrUnknown ∧
    (AsRegistryV2Error GoError.sqlErrNoRows).effectiveStatus = 500 ∧
    (AsRegistryV2Error GoError.sqlErrNoRows).Message = "sql: no rows in result set" := by
  refine ⟨fun e => rfl, fun msg => ⟨rfl, rfl, rfl, ?_⟩, by decide, by decide, by decide⟩
  show (if msg = "" then apiErrorMessages ErrUnknown else msg) =
    (if msg = "" then "unknown error" else msg)
  by_cases h : msg = ""
  · rw [if_pos h, if_pos h]; decide
  · rw [if_neg h, if_neg h]

/-- C9: for an envelope with Status 0, each of the three response writers
sends the HTTP status of the fixed code-to-status table for the envelope
code, and the envelope value after the call is unchanged in all fields. -/
theorem C9_write_resolves_status_and_preserves_envelope (e : RegistryV2Error)
    (isHeadRequest : Bool) (h : e.Status = 0) :
    (e.WriteAsRegistryV2ResponseTo isHeadRequest).1.status = apiErrorStatusCodes e.Code ∧
    (e.WriteAsRegistryV2ResponseTo isHeadRequest).2 = e ∧
    e.WriteAsAuthResponseTo.1.status = apiErrorStatusCodes e.Code ∧
    e.WriteAsAuthResponseTo.2 = e ∧
    e.WriteAsTextTo.1.status = apiErrorStatusCodes e.Code ∧
    e.WriteAsTextTo.2 = e := by
  refine ⟨?_, ?_, ?_, ?_, ?_, ?_⟩ <;>
    simp [RegistryV2Error.WriteAsRegistryV2ResponseTo, RegistryV2Error.WriteAsAuthResponseTo,
      RegistryV2Error.WriteAsTextTo, h]

/-- Witness for C9 at the MANIFEST_UNKNOWN default envelope on a non-HEAD
request. -/
theorem C9_write_resolves_status_and_preserves_envelope_witness :
    ((ErrManifestUnknown.With "").Status = 0) ∧
    (((ErrManifestUnknown.With "").WriteAsRegistryV2ResponseTo false).1.status =
        apiErrorStatusCodes (ErrManifestUnknown.With "").Code ∧
     ((ErrManifestUnknown.With "").WriteAsRegistryV2ResponseTo false).2 = ErrManifestUnknown.With "" ∧
     (ErrManifestUnknown.With "").WriteAsAuthResponseTo.1.status =
        apiErrorStatusCodes (ErrManifestUnknown.With "").Code ∧
     (ErrManifestUnknown.With "").WriteAsAuthResponseTo.2 = ErrManifestUnknown.With "" ∧
     (ErrManifestUnknown.With "").WriteAsTextTo.1.status =
        apiErrorStatusCodes (ErrManifestUnknown.With "").Code ∧
     (ErrManifestUnknown.With "").WriteAsTextTo.2 = ErrManifestUnknown.With "") :=
  ⟨rfl, C9_write_resolves_status_and_preserves_envelope (ErrManifestUnknown.With "") false rfl⟩

/-- C10: on a cache miss, whether the key is absent or the entry is at least
MaxAge old, the unittest LoadManifest returns nil contents, an empty media
type and the sentinel sql.ErrNoRows, not a nil error. -/
theorem C10_miss_returns_sql_err_no_rows (d : InboundCacheDriver) (k : ImageReference)
    (now : Int)
    (h : d.Entries k = none ∨
         ∃ entry, d.Entries k = some entry ∧ d.MaxAge ≤ now - entry.InsertedAt) :
    d.LoadManifest k now = (none, "", some GoError.sqlErrNoRows) := by
  rcases h with h | ⟨entry, he, hage⟩
  · simp only [InboundCacheDriver.LoadManifest, h]
  · simp only [InboundCacheDriver.LoadManifest, he]
    rw [if_neg (by omega : ¬now - d.MaxAge < entry.InsertedAt)]

/-- Witness for C10 on the freshly initialized (empty) unittest driver. -/
theorem C10_miss_returns_sql_err_no_rows_witness :
    ((InboundCacheDriver.Init ()).1.Entries ⟨"registry.example.org", "library/alpine", "latest"⟩ = none ∨
      ∃ entry, (InboundCacheDriver.Init ()).1.Entries ⟨"registry.example.org", "library/alpine", "latest"⟩ =
        some entry ∧ (InboundCacheDriver.Init ()).1.MaxAge ≤ 12345 - entry.InsertedAt) ∧
    (InboundCacheDriver.Init ()).1.LoadManifest ⟨"registry.example.org", "library/alpine", "latest"⟩ 12345 =
      (none, "", some GoError.sqlErrNoRows) :=
  ⟨Or.inl rfl, C10_miss_returns_sql_err_no_rows _ _ _ (Or.inl rfl)⟩

end Keppel
